import Mathlib

/-
Verification development for the color-region tracking core of the
MobileDev-Exam2 repository.  The definitions below are shallow embeddings of
the JavaScript modules `src/modules/ColorSpace.js`, `src/modules/tracking.global.js`
and the Skia frame processor of the detection screen.  JS numbers that stay in
the small integer range are modelled by Nat (no operation here approaches
2^31, so 32-bit wrap never fires); JS null/undefined cells are modelled by
Option; JS millisecond timestamps by Nat.
-/

namespace ColorTrack

/-! ### ColorSpace.js : packed bound strings

`rgbBoundsToString(lower, upper)` packs each triple into one integer with
`v[0] << 16 | v[1] << 8 | v[2] << 0` and returns the text `` `${upper}|${lower}` ``.
`stringBoundsToRGB` splits at `"|"`, coerces both decimal substrings back to
numbers and extracts the byte fields.  Since the decimal rendering of a
natural number and its re-parsing are mutually inverse and neither side can
contain `"|"`, the string is modelled by the pair of packed integers it
carries. -/

abbrev Triple := Nat × Nat × Nat

/-- The value `` `${upperPacked}|${lowerPacked}` `` produced by `rgbBoundsToString`. -/
structure BoundStr where
  upperPacked : Nat
  lowerPacked : Nat
deriving DecidableEq

/-- `v[0] << 16 | v[1] << 8 | v[2] << 0` (ColorSpace.js lines 30-39). -/
def packRGB (t : Triple) : Nat :=
  (t.1 <<< 16) ||| (t.2.1 <<< 8) ||| (t.2.2 <<< 0)

/-- `ColorSpace.rgbBoundsToString(lower, upper)` (ColorSpace.js lines 28-40). -/
def rgbBoundsToString (lower upper : Triple) : BoundStr :=
  { upperPacked := packRGB upper, lowerPacked := packRGB lower }

/-- The decoded `{ lower, upper }` object returned by `stringBoundsToRGB`. -/
structure Bounds where
  lower : Triple
  upper : Triple
deriving DecidableEq

/-- `p >> 16 & 0xFF, p >> 8 & 0xFF, p >> 0 & 0xFF` (ColorSpace.js lines 45-50). -/
def unpackRGB (p : Nat) : Triple :=
  ((p >>> 16) &&& 0xFF, (p >>> 8) &&& 0xFF, (p >>> 0) &&& 0xFF)

/-- `ColorSpace.stringBoundsToRGB(bounds)` (ColorSpace.js lines 42-56): the part
before `"|"` is the upper bound, the part after it the lower bound. -/
def stringBoundsToRGB (b : BoundStr) : Bounds :=
  { lower := unpackRGB b.lowerPacked, upper := unpackRGB b.upperPacked }

/-! ### ColorSpace.js : static tables

Each static table maps a category key to an array of packed bound strings,
built with `rgbBoundsToString(lower, upper)` exactly as in the source
(ColorSpace.js lines 169-252).  A key that is not a property of the table
yields JS `undefined`, modelled by `none`. -/

/-- `ColorSpace.HSV` (lines 169-183). -/
def HSV : String → Option (List BoundStr)
  | "RED" => some [rgbBoundsToString (0, 100, 100) (10, 255, 255),
                   rgbBoundsToString (170, 100, 100) (179, 255, 255)]
  | "ORANGE" => some [rgbBoundsToString (11, 100, 100) (23, 255, 255)]
  | "YELLOW" => some [rgbBoundsToString (24, 120, 70) (35, 255, 255)]
  | "GREEN" => some [rgbBoundsToString (36, 50, 50) (85, 255, 255)]
  | "CYAN" => some [rgbBoundsToString (86, 50, 50) (100, 255, 255)]
  | "BLUE" => some [rgbBoundsToString (101, 50, 50) (130, 255, 255)]
  | "PURPLE" => some [rgbBoundsToString (131, 50, 50) (169, 255, 255)]
  | "BLACK" => some [rgbBoundsToString (0, 0, 0) (179, 255, 50)]
  | "GRAY" => some [rgbBoundsToString (0, 0, 51) (179, 50, 200)]
  | "WHITE" => some [rgbBoundsToString (0, 0, 201) (179, 50, 255)]
  | _ => none

/-- `ColorSpace.HLS` (lines 186-200). -/
def HLS : String → Option (List BoundStr)
  | "RED" => some [rgbBoundsToString (0, 50, 100) (10, 255, 255),
                   rgbBoundsToString (170, 50, 100) (179, 255, 255)]
  | "ORANGE" => some [rgbBoundsToString (11, 50, 100) (25, 255, 255)]
  | "YELLOW" => some [rgbBoundsToString (26, 50, 100) (35, 255, 255)]
  | "GREEN" => some [rgbBoundsToString (36, 50, 50) (85, 255, 255)]
  | "CYAN" => some [rgbBoundsToString (86, 50, 50) (100, 255, 255)]
  | "BLUE" => some [rgbBoundsToString (101, 50, 50) (130, 255, 255)]
  | "PURPLE" => some [rgbBoundsToString (131, 50, 50) (169, 255, 255)]
  | "BLACK" => some [rgbBoundsToString (0, 0, 0) (179, 50, 255)]
  | "GRAY" => some [rgbBoundsToString (0, 51, 0) (179, 200, 50)]
  | "WHITE" => some [rgbBoundsToString (0, 201, 0) (179, 255, 50)]
  | _ => none

/-- `ColorSpace.BGR` (lines 203-214). -/
def BGR : String → Option (List BoundStr)
  | "RED" => some [rgbBoundsToString (0, 0, 100) (80, 80, 255)]
  | "ORANGE" => some [rgbBoundsToString (0, 80, 150) (100, 180, 255)]
  | "YELLOW" => some [rgbBoundsToString (0, 150, 150) (100, 255, 255)]
  | "GREEN" => some [rgbBoundsToString (0, 100, 0) (80, 255, 80)]
  | "CYAN" => some [rgbBoundsToString (100, 150, 0) (255, 255, 100)]
  | "BLUE" => some [rgbBoundsToString (100, 0, 0) (255, 80, 80)]
  | "PURPLE" => some [rgbBoundsToString (100, 0, 100) (255, 80, 255)]
  | "BLACK" => some [rgbBoundsToString (0, 0, 0) (50, 50, 50)]
  | "GRAY" => some [rgbBoundsToString (51, 51, 51) (200, 200, 200)]
  | "WHITE" => some [rgbBoundsToString (201, 201, 201) (255, 255, 255)]
  | _ => none

/-- `ColorSpace.LAB` (lines 218-229).  Note the property is spelled `LAB`,
while the `FORMAT` enumeration value is spelled `Lab`. -/
def LAB : String → Option (List BoundStr)
  | "RED" => some [rgbBoundsToString (20, 150, 150) (255, 255, 255)]
  | "ORANGE" => some [rgbBoundsToString (50, 128, 150) (230, 200, 220)]
  | "YELLOW" => some [rgbBoundsToString (80, 100, 150) (255, 127, 255)]
  | "GREEN" => some [rgbBoundsToString (20, 0, 100) (200, 120, 140)]
  | "CYAN" => some [rgbBoundsToString (50, 0, 100) (200, 128, 127)]
  | "BLUE" => some [rgbBoundsToString (20, 128, 0) (200, 255, 127)]
  | "PURPLE" => some [rgbBoundsToString (20, 140, 0) (200, 255, 140)]
  | "BLACK" => some [rgbBoundsToString (0, 0, 0) (50, 255, 255)]
  | "GRAY" => some [rgbBoundsToString (51, 118, 118) (200, 138, 138)]
  | "WHITE" => some [rgbBoundsToString (201, 118, 118) (255, 138, 138)]
  | _ => none

/-- `ColorSpace.XYZ` (lines 232-243). -/
def XYZ : String → Option (List BoundStr)
  | "RED" => some [rgbBoundsToString (20, 10, 0) (180, 100, 50)]
  | "ORANGE" => some [rgbBoundsToString (80, 50, 10) (200, 140, 80)]
  | "YELLOW" => some [rgbBoundsToString (120, 120, 20) (255, 255, 150)]
  | "GREEN" => some [rgbBoundsToString (10, 20, 10) (100, 150, 80)]
  | "CYAN" => some [rgbBoundsToString (80, 120, 120) (200, 255, 255)]
  | "BLUE" => some [rgbBoundsToString (10, 10, 50) (100, 100, 200)]
  | "PURPLE" => some [rgbBoundsToString (40, 20, 80) (150, 100, 220)]
  | "BLACK" => some [rgbBoundsToString (0, 0, 0) (25, 25, 25)]
  | "GRAY" => some [rgbBoundsToString (26, 26, 26) (150, 150, 150)]
  | "WHITE" => some [rgbBoundsToString (151, 151, 151) (255, 255, 255)]
  | _ => none

/-- `ColorSpace.GRAY` (lines 246-252): only five category keys exist. -/
def GRAY : String → Option (List BoundStr)
  | "BLACK" => some [rgbBoundsToString (0, 0, 0) (50, 0, 0)]
  | "DARK_GRAY" => some [rgbBoundsToString (51, 0, 0) (100, 0, 0)]
  | "MEDIUM_GRAY" => some [rgbBoundsToString (101, 0, 0) (170, 0, 0)]
  | "LIGHT_GRAY" => some [rgbBoundsToString (171, 0, 0) (220, 0, 0)]
  | "WHITE" => some [rgbBoundsToString (221, 0, 0) (255, 0, 0)]
  | _ => none

/-! ### ColorSpace.js : FORMAT and the closest-category lookup -/

/-- The six enumeration values carried by `ColorSpace.FORMAT` (lines 3-19). -/
def FORMATkeys : List String := ["BGR", "GRAY", "HLS", "HSV", "Lab", "XYZ"]

/-- Result of the JS property read `FORMAT[value]`. -/
inductive JsProp where
  | str (s : String)
  | method
  | undef
deriving DecidableEq

/-- `FORMAT.from(value)` evaluates `this[value] || null`.  Own properties of
the frozen object are the six format strings and the method `from` itself;
reading any other key gives `undefined`, so the result is `null`.  (Inherited
`Object.prototype` members such as `toString` would also be truthy; they are
not needed by any claim and are left out of the model.) -/
def FORMATfromLookup (v : String) : JsProp :=
  if v ∈ FORMATkeys then JsProp.str v
  else if v = "from" then JsProp.method
  else JsProp.undef

/-- JS truthiness of the `FORMAT.from` result (`null` and `""` are falsy). -/
def jsPropTruthy : JsProp → Bool
  | JsProp.str s => !(s = "")
  | JsProp.method => true
  | JsProp.undef => false

/-- Own static properties of the `ColorSpace` class object, read by the
`!ColorSpace[format]` validation in `ColorClosestToRGB` (line 68).  The table
property is spelled `LAB`; there is no property named `Lab`.  (Intrinsic
function-object properties such as `name` or `prototype` are never passed as
formats and are left out.) -/
def classStaticProps : List String :=
  ["FORMAT", "HSV", "HLS", "BGR", "LAB", "XYZ", "GRAY",
   "rgbBoundsToString", "stringBoundsToRGB", "ColorClosestToRGB", "IntegerToRGB"]

/-- `ColorSpace[format][colorKey]` for the table-valued properties.  Reading a
category off a non-table property (for example `FORMAT`) gives `undefined`. -/
def tableLookup (format key : String) : Option (List BoundStr) :=
  if format = "HSV" then HSV key
  else if format = "HLS" then HLS key
  else if format = "BGR" then BGR key
  else if format = "LAB" then LAB key
  else if format = "XYZ" then XYZ key
  else if format = "GRAY" then GRAY key
  else none

/-- The `colorKey` branch of `ColorClosestToRGB` (ColorSpace.js lines 73-130).
JS float comparisons on `avg = (r+g+b)/3` and products like `r * 0.6` are
modelled exactly over the rationals; all inputs are 8-bit integers, far below
any double-precision rounding that could flip a strict comparison off the
exact tie values. -/
def closestColorKey (r g b : Nat) : String :=
  let max3 := max r (max g b)
  let min3 := min r (min g b)
  let diff := max3 - min3
  let avg : ℚ := ((r : ℚ) + (g : ℚ) + (b : ℚ)) / 3
  if diff < 30 then
    if avg < 50 then "BLACK"
    else if avg > 220 then "WHITE"
    else "GRAY"
  else
    if max3 = r then
      if g > b ∧ (g : ℚ) > (r : ℚ) * 0.6 then
        (if (g : ℚ) > (r : ℚ) * 0.85 then "YELLOW" else "ORANGE")
      else if b > g ∧ (b : ℚ) > (r : ℚ) * 0.5 then "PURPLE"
      else "RED"
    else if max3 = g then
      if r > b ∧ (r : ℚ) > (g : ℚ) * 0.7 then "YELLOW"
      else if b > r ∧ (b : ℚ) > (g : ℚ) * 0.7 then "CYAN"
      else "GREEN"
    else
      if r > g ∧ (r : ℚ) > (b : ℚ) * 0.5 then "PURPLE"
      else if g > r ∧ (g : ℚ) > (b : ℚ) * 0.7 then "CYAN"
      else "BLUE"

/-- The `format === 'GRAY'` override of `colorKey` (lines 133-139). -/
def grayColorKey (r g b : Nat) : String :=
  let avg : ℚ := ((r : ℚ) + (g : ℚ) + (b : ℚ)) / 3
  if avg > 220 then "WHITE"
  else if avg > 170 then "LIGHT_GRAY"
  else if avg > 100 then "MEDIUM_GRAY"
  else if avg > 50 then "DARK_GRAY"
  else "BLACK"

/-- `ColorSpace.ColorClosestToRGB(rgb, format)` (lines 64-156): validate the
format against the class properties (returning `[]` on failure), classify the
sample, override the key for the GRAY format, look the key up in the table
(returning `[]` when the key is absent) and decode each bound string. -/
def ColorClosestToRGB : Triple → String → List Bounds
  | (r, g, b), format =>
    if format ∈ classStaticProps then
      let key0 := closestColorKey r g b
      let key := if format = "GRAY" then grayColorKey r g b else key0
      match tableLookup format key with
      | none => []
      | some bs => bs.map stringBoundsToRGB
    else []

/-! ### Frame processor : multi-range mask accumulation

Embeds the mask union loop of the Skia frame processor (detection screen,
lines 210-254): `for (let range of colorFilter.value)` creates per-range
`inRange` bounds with fallbacks `[30,60,60]` / `[50,157,157]` substituted for
a falsy `range.lower` / `range.upper`, builds a temporary mask per range and
ORs it into the accumulator, which starts as JS `null` and stays `null` when
the loop body never runs. -/

/-- A `colorFilter` entry as the loop reads it: either field may be absent. -/
structure JRange where
  lower : Option Triple
  upper : Option Triple
deriving DecidableEq

/-- The literal fallback lower bound `[30, 60, 60]` (line 214). -/
def fallbackLower : Triple := (30, 60, 60)

/-- The literal fallback upper bound `[50, 157, 157]` (line 215). -/
def fallbackUpper : Triple := (50, 157, 157)

/-- `range.lower ? range.lower : [30, 60, 60]`. -/
def rangeLower (r : JRange) : Triple := r.lower.getD fallbackLower

/-- `range.upper ? range.upper : [50, 157, 157]`. -/
def rangeUpper (r : JRange) : Triple := r.upper.getD fallbackUpper

/-- OpenCV `inRange(src, lower, upper)` at one pixel: inclusive on both ends,
componentwise. -/
def inRangeB (p : Triple) (r : JRange) : Bool :=
  decide ((rangeLower r).1 ≤ p.1 ∧ p.1 ≤ (rangeUpper r).1 ∧
    (rangeLower r).2.1 ≤ p.2.1 ∧ p.2.1 ≤ (rangeUpper r).2.1 ∧
    (rangeLower r).2.2 ≤ p.2.2 ∧ p.2.2 ≤ (rangeUpper r).2.2)

/-- The accumulated mask value at one pixel after the range loop: `none` is
the JS `null` accumulator (no range processed, no mask applied to `dst`);
the first iteration copies the temporary mask, later iterations OR into it. -/
def maskLoop (filter : List JRange) (p : Triple) : Option Bool :=
  filter.foldl
    (fun acc r =>
      match acc with
      | none => some (inRangeB p r)
      | some m => some (m || inRangeB p r))
    none

/-- The (lower, upper) scalar pairs passed to the `inRange` invocations, in
loop order. -/
def inRangeCalls (filter : List JRange) : List (Triple × Triple) :=
  filter.map (fun r => (rangeLower r, rangeUpper r))

/-- Coercion from a decoded table entry to the shape the mask loop reads. -/
def boundsToJRange (b : Bounds) : JRange :=
  { lower := some b.lower, upper := some b.upper }

/-! ### Frame processor : bounding-box collection (lines 276-302)

`rectangles` collects `OpenCV.toJSValue(boundingRect(contour))` values, which
carry exactly the fields `x`, `y`, `width`, `height`.  The code then runs
`rectangles.sort((a, b) => a.area - b.area)` — but the rect values have no
`area` property, so the comparator computes `undefined - undefined = NaN`,
which the ECMAScript `SortCompare` operation coerces to `+0`; a stable sort
under an always-zero comparator is the identity.  Immediately after, line 302
executes `rectangles = rectangles.slice(0, maxCount)` although `rectangles`
was declared with `const` on line 277, which raises
`TypeError: Assignment to constant variable.` at run time. -/

/-- A bounding rectangle as produced by `toJSValue(boundingRect(c))`. -/
structure Rect where
  x : Nat
  y : Nat
  width : Nat
  height : Nat
deriving DecidableEq

/-- JS property access on a rect value; any key other than the four fields
reads `undefined` (`none`). -/
def rectProp (r : Rect) (p : String) : Option Int :=
  if p = "x" then some r.x
  else if p = "y" then some r.y
  else if p = "width" then some r.width
  else if p = "height" then some r.height
  else none

/-- JS subtraction where `undefined` operands poison the result to NaN. -/
def jsSubNum : Option Int → Option Int → Option Int
  | some a, some b => some (a - b)
  | _, _ => none

/-- The comparator `(a, b) => a.area - b.area` as consumed by `SortCompare`:
a NaN comparator result is treated as `+0`. -/
def sortCompare (a b : Rect) : Int :=
  match jsSubNum (rectProp a ("area")) (rectProp b ("area")) with
  | some v => v
  | none => 0

/-- Stable insertion used to model `Array.prototype.sort` (stable since
ES2019): an element moves before another only when the comparator says it is
strictly smaller. -/
def insertRect (c : Rect → Rect → Int) (a : Rect) : List Rect → List Rect
  | [] => [a]
  | b :: bs => if c a b ≤ 0 then a :: b :: bs else b :: insertRect c a bs

/-- `rectangles.sort((a, b) => a.area - b.area)` (line 300). -/
def jsSortRects (l : List Rect) : List Rect :=
  l.foldr (insertRect sortCompare) []

/-- Lines 300-302 of the frame processor: sort, then
`rectangles = rectangles.slice(0, maxCount)`.  The second statement assigns
to the `const` binding `rectangles` declared on line 277 and therefore throws
before any truncation or rendering happens. -/
def framePost (rects : List Rect) (_maxCount : Nat) : Except String (List Rect) :=
  let _sorted := jsSortRects rects
  Except.error ("TypeError: Assignment to constant variable.")

/-! ### Frame processor : tap sampling (lines 322-392) -/

/-- A tap coordinate; JS numbers may be negative, so Int. -/
structure TapPt where
  x : Int
  y : Int
deriving DecidableEq

/-- A full-resolution RGB frame: packed interleaved rows, 3 values/pixel. -/
structure Frame where
  width : Nat
  height : Nat
  data : List Nat
deriving DecidableEq

/-- Reads `fullsized[(y*width+x)*3 .. +2]` for in-bounds coordinates. -/
def pixelAt (f : Frame) (x y : Nat) : Triple :=
  ((f.data.getD ((y * f.width + x) * 3) 0),
   (f.data.getD ((y * f.width + x) * 3 + 1) 0),
   (f.data.getD ((y * f.width + x) * 3 + 2) 0))

/-- The pixels accumulated by the nested sampling loops (lines 343-369):
outer `dy` from `-PixelRadius` to `PixelRadius`, inner `dx` likewise — here
reindexed as `dy = iy - R` for `iy = 0 .. 2R` — keeping an offset when it
lies in the disk `dx*dx + dy*dy <= R*R` and the absolute coordinate is inside
the frame. -/
def tapSamples (f : Frame) (R : Nat) (t : TapPt) : List Triple :=
  (List.range (2 * R + 1)).flatMap (fun (iy : Nat) =>
    (List.range (2 * R + 1)).filterMap (fun (ix : Nat) =>
      if ((ix : Int) - (R : Int)) * ((ix : Int) - (R : Int)) +
           ((iy : Int) - (R : Int)) * ((iy : Int) - (R : Int)) ≤
           (R : Int) * (R : Int) then
        if 0 ≤ t.x + ((ix : Int) - (R : Int)) ∧
           t.x + ((ix : Int) - (R : Int)) < (f.width : Int) ∧
           0 ≤ t.y + ((iy : Int) - (R : Int)) ∧
           t.y + ((iy : Int) - (R : Int)) < (f.height : Int) then
          some (pixelAt f (t.x + ((ix : Int) - (R : Int))).toNat
            (t.y + ((iy : Int) - (R : Int))).toNat)
        else none
      else none))

/-- Running totals `totalR/totalG/totalB` of the sampled pixels. -/
def sumTriples (l : List Triple) : Triple :=
  l.foldl (fun acc p => (acc.1 + p.1, acc.2.1 + p.2.1, acc.2.2 + p.2.2)) (0, 0, 0)

/-- `Math.round(total / count)` for positive `count`: floor(total/count + 1/2),
exact for these magnitudes. -/
def jsRound (total count : Nat) : Nat := (2 * total + count) / (2 * count)

/-- Lines 371-384: rounded channel averages when `sampleCount > 0`, otherwise
the `[0, 0, 0]` failsafe. -/
def averageColor (samples : List Triple) : Triple :=
  if samples.length > 0 then
    (jsRound (sumTriples samples).1 samples.length,
     jsRound (sumTriples samples).2.1 samples.length,
     jsRound (sumTriples samples).2.2 samples.length)
  else (0, 0, 0)

/-- Observable outcome of the tap block: the color passed to
`setSelectedColor` (if any) and whether `tapPosition` was set back to null. -/
structure TapResult where
  colorSubmitted : Option Triple
  tapCleared : Bool
deriving DecidableEq

/-- The tap block of the frame processor (lines 322-392): an early return when
`tapPosition` is null; otherwise the sampling runs only under the guard
`tap.x >= 0 && tap.x < frame.width && tap.y >= 0 && tap.y < frame.height`,
and `tapPosition.value = null` executes unconditionally at the end. -/
def handleTap (f : Frame) (R : Nat) (tap : Option TapPt) : TapResult :=
  match tap with
  | none => { colorSubmitted := none, tapCleared := false }
  | some t =>
    if 0 ≤ t.x ∧ t.x < (f.width : Int) ∧ 0 ≤ t.y ∧ t.y < (f.height : Int) then
      { colorSubmitted := some (averageColor (tapSamples f R t)), tapCleared := true }
    else
      { colorSubmitted := none, tapCleared := true }

/-- Modelled from the spec (§4.4 step 8): average RGB over the in-bounds
pixels of the disk of radius `R` centered at the tap coordinate, falling back
to pure black when zero pixels are in bounds — with no precondition on the
tap coordinate itself. -/
def specTapColor (f : Frame) (R : Nat) (t : TapPt) : Triple :=
  averageColor (tapSamples f R t)

/-- A concrete 4×4 frame whose every pixel is (100, 150, 200). -/
def frame4x4 : Frame :=
  { width := 4, height := 4, data := (List.replicate 16 [100, 150, 200]).flatten }

/-! ### tracking.global.js : throttled shared registers -/

/-- `const THROTTLED = 50` (line 58). -/
def THROTTLED : Nat := 50

/-- `isThrottled(property)` (lines 66-79) over one field: `prev = 0` models a
missing `timeLastSent` entry (JS `undefined` and `0` are equally falsy here).
Returns the throttle verdict together with the updated entry — the entry is
refreshed exactly when the verdict is false. -/
def isThrottled (now prev : Nat) : Bool × Nat :=
  if prev ≠ 0 ∧ now - prev < THROTTLED then (true, prev) else (false, now)

/-- One shared field together with its `timeLastSent` entry. -/
structure Reg (α : Type) where
  value : α
  lastSent : Nat
deriving DecidableEq

/-- The common setter pattern
`if (value == field.value || isThrottled(key)) return; field.value = value;`
with JS `==` modelled at value level (`value == field.value` short-circuits
before `isThrottled`, so an equal-value call does not refresh the entry). -/
def throttledSet {α : Type} [DecidableEq α] (now : Nat) (v : α) (r : Reg α) : Reg α :=
  if v = r.value then r
  else
    let p := isThrottled now r.lastSent
    if p.1 then r else { value := v, lastSent := p.2 }

/-- `setTapPosition` (lines 85-94). -/
def setTapPosition (now : Nat) (v : Option TapPt) (r : Reg (Option TapPt)) :
    Reg (Option TapPt) :=
  throttledSet now v r

/-- `setSelectedColor` (lines 111-120). -/
def setSelectedColor (now : Nat) (v : Option Triple) (r : Reg (Option Triple)) :
    Reg (Option Triple) :=
  throttledSet now v r

/-- `setColorFormat` (lines 137-149).  The validity test
`if (!ColorSpace.FORMAT.from(type)) return;` runs only after `isThrottled`
has already refreshed `timeLastSent`, so a rejected format still consumes the
window. -/
def setColorFormat (now : Nat) (ty : String) (r : Reg (Option String)) :
    Reg (Option String) :=
  if some ty = r.value then r
  else
    let p := isThrottled now r.lastSent
    if p.1 then r
    else if jsPropTruthy (FORMATfromLookup ty) = false then
      { value := r.value, lastSent := p.2 }
    else
      { value := some ty, lastSent := p.2 }

/-! ### tracking.global.js : resetToDefaults (lines 39-54) -/

/-- The four shared cells of the tracking store. -/
structure GlobalState where
  tapPosition : Option TapPt
  colorFormat : Option String
  selectedColor : Option Triple
  colorFilter : Option (List Bounds)
deriving DecidableEq

/-- `rgba(224, 138, 9, 1)`: the helper takes three parameters, so the alpha
argument is dropped. -/
def defaultColor : Triple := (224, 138, 9)

/-- `resetToDefaults()` (lines 39-54).  The `typeof cell.value == 'object'`
guards null exactly the non-string cells: `typeof null` and `typeof array`
are both `'object'`, so `selectedColor` and `colorFilter` are always nulled
and then refilled with the defaults, while a string-valued `colorFormat`
passes through and the `!colorFormat.value ? HSV : colorFormat.value` line
replaces only a falsy (null or empty-string) value.  `tapPosition` is always
nulled and the filter is re-derived from the resulting sample and format. -/
def resetToDefaults (s : GlobalState) : GlobalState :=
  let cf : String :=
    match s.colorFormat with
    | none => "HSV"
    | some str => if str = "" then "HSV" else str
  { tapPosition := none
    colorFormat := some cf
    selectedColor := some defaultColor
    colorFilter := some (ColorClosestToRGB defaultColor cf) }

/-! ### Helper enumerations for the table-coverage claims -/

/-- The decoded `ThresholdSet` for HSV RED, as read by the poller and the
frame pipeline (`ColorSpace.HSV.RED.map(stringBoundsToRGB)`). -/
def hsvRed : List Bounds := ((HSV ("RED")).getD []).map stringBoundsToRGB

/-- The decoded `ThresholdSet` for HLS RED. -/
def hlsRed : List Bounds := ((HLS ("RED")).getD []).map stringBoundsToRGB

/-- The categories other than RED present in the HSV and HLS tables. -/
def singleRangeCats : List String :=
  ["ORANGE", "YELLOW", "GREEN", "CYAN", "BLUE", "PURPLE", "BLACK", "GRAY", "WHITE"]

/-- The ten coarse keys the saturated/neutral classification can produce. -/
def tenKeys : List String :=
  ["RED", "ORANGE", "YELLOW", "GREEN", "CYAN", "BLUE", "PURPLE", "BLACK", "GRAY", "WHITE"]

/-- The five keys the GRAY-format override can produce. -/
def grayKeys : List String :=
  ["WHITE", "LIGHT_GRAY", "MEDIUM_GRAY", "DARK_GRAY", "BLACK"]

/-- The FORMAT values whose spelling matches a static table property. -/
def fiveFormats : List String := ["BGR", "GRAY", "HLS", "HSV", "XYZ"]

/-! ### Byte-field extraction lemmas for the packed encoding -/

theorem packRGB_testBit (a b c i : Nat) :
    (packRGB (a, b, c)).testBit i =
      ((decide (16 ≤ i) && a.testBit (i - 16)) ||
       (decide (8 ≤ i) && b.testBit (i - 8)) || c.testBit i) := by
  unfold packRGB
  simp [Nat.testBit_or, Nat.testBit_shiftLeft, ge_iff_le]

theorem unpackRGB_packRGB (a b c : Nat)
    (ha : a < 256) (hb : b < 256) (hc : c < 256) :
    unpackRGB (packRGB (a, b, c)) = (a, b, c) := by
  have h255 : (0xFF : Nat) = 2 ^ 8 - 1 := by norm_num
  have hbit : ∀ (x j : Nat), x < 256 → 8 ≤ j → x.testBit j = false := by
    intro x j hx hj
    have h28 : (256 : Nat) = 2 ^ 8 := by norm_num
    have h2 : (2 : Nat) ^ 8 ≤ 2 ^ j := Nat.pow_le_pow_right (by norm_num) hj
    exact Nat.testBit_lt_two_pow (lt_of_lt_of_le (h28 ▸ hx) h2)
  unfold unpackRGB
  simp only [Prod.mk.injEq]
  refine ⟨?_, ?_, ?_⟩
  · apply Nat.eq_of_testBit_eq
    intro i
    rw [h255]
    simp only [Nat.testBit_and, Nat.testBit_shiftRight, Nat.testBit_two_pow_sub_one,
      packRGB_testBit]
    by_cases hi : i < 8
    · have e1 : 16 + i - 16 = i := by omega
      have e2 : b.testBit (16 + i - 8) = false := hbit b _ hb (by omega)
      have e3 : c.testBit (16 + i) = false := hbit c _ hc (by omega)
      simp [e1, e2, e3, hi]
    · have e4 : a.testBit i = false := hbit a _ ha (by omega)
      simp [hi, e4]
  · apply Nat.eq_of_testBit_eq
    intro i
    rw [h255]
    simp only [Nat.testBit_and, Nat.testBit_shiftRight, Nat.testBit_two_pow_sub_one,
      packRGB_testBit]
    by_cases hi : i < 8
    · have e1 : ¬ 16 ≤ 8 + i := by omega
      have e2 : 8 + i - 8 = i := by omega
      have e3 : c.testBit (8 + i) = false := hbit c _ hc (by omega)
      simp [e1, e2, e3, hi]
    · have e4 : b.testBit i = false := hbit b _ hb (by omega)
      simp [hi, e4]
  · apply Nat.eq_of_testBit_eq
    intro i
    rw [h255]
    simp only [Nat.testBit_and, Nat.testBit_shiftRight, Nat.testBit_two_pow_sub_one,
      packRGB_testBit]
    by_cases hi : i < 8
    · have e1 : ¬ 16 ≤ i := by omega
      have e2 : ¬ 8 ≤ i := by omega
      simp [e1, e2, hi]
    · have e4 : c.testBit i = false := hbit c _ hc (by omega)
      simp [hi, e4]

/-! ### Claim C5 : lossless bound-string round trip -/

/-- Claim C5: for all lower and upper triples with each component an integer
in [0,255], decoding the encoded bound string reproduces both triples:
`stringBoundsToRGB(rgbBoundsToString(lower, upper))` returns exactly
`{ lower, upper }`. -/
theorem bounds_string_round_trip (l0 l1 l2 u0 u1 u2 : Nat)
    (hl0 : l0 ≤ 255) (hl1 : l1 ≤ 255) (hl2 : l2 ≤ 255)
    (hu0 : u0 ≤ 255) (hu1 : u1 ≤ 255) (hu2 : u2 ≤ 255) :
    stringBoundsToRGB (rgbBoundsToString (l0, l1, l2) (u0, u1, u2)) =
      { lower := (l0, l1, l2), upper := (u0, u1, u2) } := by
  have h1 := unpackRGB_packRGB l0 l1 l2 (by omega) (by omega) (by omega)
  have h2 := unpackRGB_packRGB u0 u1 u2 (by omega) (by omega) (by omega)
  simp [stringBoundsToRGB, rgbBoundsToString, h1, h2]

/-- Witness for C5 at the concrete triples (0,1,2) and (253,254,255). -/
theorem bounds_string_round_trip_witness :
    stringBoundsToRGB (rgbBoundsToString (0, 1, 2) (253, 254, 255)) =
      { lower := (0, 1, 2), upper := (253, 254, 255) } :=
  bounds_string_round_trip 0 1 2 253 254 255 (by decide) (by decide) (by decide)
    (by decide) (by decide) (by decide)

/-! ### Claim C6 : the RED category in the hue-based tables -/

/-- Claim C6: in the HSV and HLS tables the RED ThresholdSet decodes to
exactly two ranges whose hue sub-ranges are [0,10] and [170,179]; those hue
sub-ranges are disjoint; a pixel with hue 5 and one with hue 175 (saturation
and value inside the range) both pass the accumulated RED mask; and every
other category in those two tables is a single range. -/
theorem red_two_ranges_hue_wrap :
    hsvRed = [{ lower := (0, 100, 100), upper := (10, 255, 255) },
              { lower := (170, 100, 100), upper := (179, 255, 255) }]
    ∧ hlsRed = [{ lower := (0, 50, 100), upper := (10, 255, 255) },
                { lower := (170, 50, 100), upper := (179, 255, 255) }]
    ∧ ((List.range 180).all fun h =>
        !(decide (h ≤ 10) && decide (170 ≤ h))) = true
    ∧ maskLoop (hsvRed.map boundsToJRange) (5, 150, 150) = some true
    ∧ maskLoop (hsvRed.map boundsToJRange) (175, 150, 150) = some true
    ∧ maskLoop (hlsRed.map boundsToJRange) (5, 150, 150) = some true
    ∧ maskLoop (hlsRed.map boundsToJRange) (175, 150, 150) = some true
    ∧ (singleRangeCats.all fun k => ((HSV k).getD []).length == 1) = true
    ∧ (singleRangeCats.all fun k => ((HLS k).getD []).length == 1) = true := by
  decide

/-! ### Claim C1 : mask accumulation and the fallback range -/

/-- Claim C1 (counterexample): with an empty threshold set the loop performs
zero inRange tests and applies no mask at all — `accumulatedMask` stays null —
although the pixel (40,100,100) lies inside the hardcoded fallback range, so a
fallback mask would have accepted it. -/
theorem empty_filter_applies_no_mask :
    inRangeCalls [] = [] ∧ maskLoop [] (40, 100, 100) = none ∧
      inRangeB (40, 100, 100)
        { lower := some fallbackLower, upper := some fallbackUpper } = true :=
  ⟨rfl, rfl, by decide⟩

/-- Claim C1 (amended): the hardcoded fallback bounds substitute only for a
present range whose lower or upper field is falsy; when the threshold set is
non-empty the accumulated mask is the logical OR of the per-range inRange
tests, and when it is empty no inRange test runs and no mask is applied. -/
theorem mask_union_amended (filter : List JRange) (p : Triple) :
    maskLoop filter p =
      (if filter = [] then none else some (filter.any (inRangeB p)))
    ∧ rangeLower { lower := none, upper := some fallbackUpper } = fallbackLower
    ∧ rangeUpper { lower := some fallbackLower, upper := none } = fallbackUpper
    ∧ (inRangeCalls filter).length = filter.length := by
  have go : ∀ (l : List JRange) (m : Bool),
      l.foldl
        (fun acc r =>
          match acc with
          | none => some (inRangeB p r)
          | some mm => some (mm || inRangeB p r))
        (some m) = some (m || l.any (inRangeB p)) := by
    intro l
    induction l with
    | nil => intro m; simp
    | cons r rs ih =>
      intro m
      simp only [List.foldl_cons, List.any_cons, ih, Bool.or_assoc]
  refine ⟨?_, rfl, rfl, by simp [inRangeCalls]⟩
  cases filter with
  | nil => rfl
  | cons r rs => simp only [maskLoop, List.foldl_cons, go, List.any_cons,
      reduceCtorEq, if_false]

/-! ### Claim C3 : bounding-box sort and truncation -/

/-- Claim C3 (code bug): the rect values carry no `area` property, so the sort
comparator yields NaN, which `SortCompare` treats as equality — the stable
sort leaves the larger-area rect first — and the subsequent
`rectangles = rectangles.slice(0, maxCount)` assigns to a `const` binding and
throws, so no sorted/truncated DetectionResult is ever produced. -/
theorem rect_stage_const_reassignment_throws :
    jsSortRects [{ x := 0, y := 0, width := 30, height := 30 },
                 { x := 5, y := 5, width := 2, height := 2 }] =
      [{ x := 0, y := 0, width := 30, height := 30 },
       { x := 5, y := 5, width := 2, height := 2 }]
    ∧ framePost [{ x := 0, y := 0, width := 30, height := 30 },
                 { x := 5, y := 5, width := 2, height := 2 }] 50 =
        Except.error ("TypeError: Assignment to constant variable.") :=
  ⟨rfl, rfl⟩

/-! ### Claim C4 : tap-driven sampling -/

/-- Claim C4 (counterexample): a pending tap at (-1, 0) on the 4×4 frame is
out of bounds, so the guard skips the whole sampling block: no color (in
particular not black) is submitted even though the radius-10 disk around the
tap contains 16 in-bounds pixels whose average is (100,150,200); the tap is
still cleared. -/
theorem out_of_bounds_tap_skips_update :
    handleTap frame4x4 10 (some { x := -1, y := 0 }) =
      { colorSubmitted := none, tapCleared := true }
    ∧ specTapColor frame4x4 10 { x := -1, y := 0 } = (100, 150, 200)
    ∧ (tapSamples frame4x4 10 { x := -1, y := 0 }).length = 16 := by
  refine ⟨by decide, by decide, by decide⟩

/-- Claim C4 (amended): when the pending tap itself lies inside the frame,
the pipeline submits the rounded average over the in-bounds pixels of the
radius-R disk (the sample set always contains the tap pixel, so the black
fallback branch is unreachable) and clears the tap; when the tap lies outside
the frame no color is submitted at all, and the tap is still cleared. -/
theorem tap_sampling_amended (f : Frame) (R : Nat) (t : TapPt) :
    (0 ≤ t.x ∧ t.x < (f.width : Int) ∧ 0 ≤ t.y ∧ t.y < (f.height : Int) →
      handleTap f R (some t) =
        { colorSubmitted := some (specTapColor f R t), tapCleared := true }
      ∧ tapSamples f R t ≠ [])
    ∧ (¬ (0 ≤ t.x ∧ t.x < (f.width : Int) ∧ 0 ≤ t.y ∧ t.y < (f.height : Int)) →
      handleTap f R (some t) = { colorSubmitted := none, tapCleared := true }) := by
  constructor
  · intro h
    refine ⟨by simp [handleTap, h, specTapColor], ?_⟩
    have hmem : pixelAt f t.x.toNat t.y.toNat ∈ tapSamples f R t := by
      have hRlt : R < 2 * R + 1 := by omega
      have hRmem : R ∈ List.range (2 * R + 1) := List.mem_range.mpr hRlt
      unfold tapSamples
      apply List.mem_flatMap.mpr
      refine ⟨R, hRmem, ?_⟩
      apply List.mem_filterMap.mpr
      refine ⟨R, hRmem, ?_⟩
      simp only [sub_self]
      have hc : (0 : Int) * 0 + 0 * 0 ≤ (R : Int) * (R : Int) := by positivity
      have hb : 0 ≤ t.x + 0 ∧ t.x + 0 < (f.width : Int) ∧
          0 ≤ t.y + 0 ∧ t.y + 0 < (f.height : Int) := by omega
      rw [if_pos hc, if_pos hb]
      simp
    intro hnil
    rw [hnil] at hmem
    simp at hmem
  · intro h
    simp [handleTap, h]

/-- Witness for the amended C4 at an in-bounds tap on the concrete frame. -/
theorem tap_sampling_amended_witness :
    handleTap frame4x4 10 (some { x := 1, y := 1 }) =
      { colorSubmitted := some (specTapColor frame4x4 10 { x := 1, y := 1 }),
        tapCleared := true } :=
  ((tap_sampling_amended frame4x4 10 { x := 1, y := 1 }).1 (by decide)).1

/-! ### Throttle helper lemmas -/

theorem isThrottled_true (now prev : Nat)
    (h : prev ≠ 0 ∧ now - prev < THROTTLED) :
    isThrottled now prev = (true, prev) := by
  unfold isThrottled
  rw [if_pos h]

theorem isThrottled_false (now prev : Nat)
    (h : ¬ (prev ≠ 0 ∧ now - prev < THROTTLED)) :
    isThrottled now prev = (false, now) := by
  unfold isThrottled
  rw [if_neg h]

theorem throttledSet_eq_noop {α : Type} [DecidableEq α] (t : Nat) (v : α)
    (r : Reg α) (heq : v = r.value) : throttledSet t v r = r := by
  unfold throttledSet
  rw [if_pos heq]

theorem throttledSet_window {α : Type} [DecidableEq α] (t : Nat) (v : α)
    (r : Reg α) (h1 : r.lastSent ≠ 0) (h2 : t - r.lastSent < THROTTLED) :
    (throttledSet t v r).value = r.value := by
  unfold throttledSet
  by_cases heq : v = r.value
  · rw [if_pos heq]
  · rw [if_neg heq, isThrottled_true t r.lastSent ⟨h1, h2⟩]
    simp

theorem setColorFormat_eq_noop (t : Nat) (v : String) (r : Reg (Option String))
    (heq : some v = r.value) : setColorFormat t v r = r := by
  unfold setColorFormat
  rw [if_pos heq]

theorem setColorFormat_throttled (t : Nat) (v : String) (r : Reg (Option String))
    (hne : some v ≠ r.value) (hthr : r.lastSent ≠ 0 ∧ t - r.lastSent < THROTTLED) :
    setColorFormat t v r = r := by
  unfold setColorFormat
  rw [if_neg hne, isThrottled_true t r.lastSent hthr]
  simp

theorem setColorFormat_applies (t : Nat) (v : String) (r : Reg (Option String))
    (hne : some v ≠ r.value) (hthr : ¬ (r.lastSent ≠ 0 ∧ t - r.lastSent < THROTTLED))
    (hval : jsPropTruthy (FORMATfromLookup v) = true) :
    setColorFormat t v r = { value := some v, lastSent := t } := by
  unfold setColorFormat
  rw [if_neg hne, isThrottled_false t r.lastSent hthr]
  simp [hval]

theorem setColorFormat_window (t : Nat) (v : String) (r : Reg (Option String))
    (h1 : r.lastSent ≠ 0) (h2 : t - r.lastSent < THROTTLED) :
    (setColorFormat t v r).value = r.value := by
  by_cases heq : some v = r.value
  · rw [setColorFormat_eq_noop t v r heq]
  · rw [setColorFormat_throttled t v r heq ⟨h1, h2⟩]

theorem formatKey_truthy (v : String) (hv : v ∈ FORMATkeys) :
    jsPropTruthy (FORMATfromLookup v) = true := by
  simp only [FORMATkeys] at hv
  fin_cases hv <;> decide

/-! ### Claim C2 : per-field write throttling -/

/-- Claim C2: a set whose value equals the current value of the field, or one
arriving less than 50ms after the previously committed `timeLastSent` entry,
leaves the field unchanged and raises no error (the setters are total); and
in the concrete scenario, of two `setColorFormat` calls with different valid
values less than 50ms apart only the first is applied, while a third call
issued once the 50ms interval has elapsed is applied. -/
theorem field_throttle_property
    (rT : Reg (Option TapPt)) (rS : Reg (Option Triple)) (rC : Reg (Option String))
    (now : Nat) (vT : Option TapPt) (vS : Option Triple) (vC : String)
    (v0 v1 v2 v3 : String) (t1 t2 t3 : Nat)
    (hv1 : v1 ∈ FORMATkeys) (h01 : v0 ≠ v1)
    (hv3 : v3 ∈ FORMATkeys) (h31 : v3 ≠ v1)
    (ht1 : 0 < t1) (h12 : t1 ≤ t2) (hlt : t2 - t1 < 50) (h3 : t1 + 50 ≤ t3) :
    (vT = rT.value → setTapPosition now vT rT = rT)
    ∧ (vS = rS.value → setSelectedColor now vS rS = rS)
    ∧ (some vC = rC.value → setColorFormat now vC rC = rC)
    ∧ (rT.lastSent ≠ 0 → now - rT.lastSent < 50 →
        (setTapPosition now vT rT).value = rT.value)
    ∧ (rS.lastSent ≠ 0 → now - rS.lastSent < 50 →
        (setSelectedColor now vS rS).value = rS.value)
    ∧ (rC.lastSent ≠ 0 → now - rC.lastSent < 50 →
        (setColorFormat now vC rC).value = rC.value)
    ∧ ((setColorFormat t1 v1 { value := some v0, lastSent := 0 }).value = some v1
       ∧ setColorFormat t2 v2 (setColorFormat t1 v1 { value := some v0, lastSent := 0 })
           = setColorFormat t1 v1 { value := some v0, lastSent := 0 }
       ∧ (setColorFormat t3 v3 (setColorFormat t2 v2 (setColorFormat t1 v1
            { value := some v0, lastSent := 0 }))).value = some v3) := by
  have hs1 : setColorFormat t1 v1 { value := some v0, lastSent := 0 } =
      { value := some v1, lastSent := t1 } := by
    apply setColorFormat_applies
    · intro hh
      exact h01 (Option.some.inj hh).symm
    · simp
    · exact formatKey_truthy v1 hv1
  have hs2 : setColorFormat t2 v2 { value := some v1, lastSent := t1 } =
      { value := some v1, lastSent := t1 } := by
    by_cases heq : some v2 = (some v1 : Option String)
    · exact setColorFormat_eq_noop t2 v2 _ heq
    · exact setColorFormat_throttled t2 v2 _ heq
        ⟨show t1 ≠ 0 by omega, show t2 - t1 < 50 by omega⟩
  have hs3 : (setColorFormat t3 v3 { value := some v1, lastSent := t1 }).value =
      some v3 := by
    rw [setColorFormat_applies t3 v3 _ (fun hh => h31 (Option.some.inj hh))
      (show ¬ (t1 ≠ 0 ∧ t3 - t1 < 50) by omega) (formatKey_truthy v3 hv3)]
  refine ⟨fun h => throttledSet_eq_noop now vT rT h,
    fun h => throttledSet_eq_noop now vS rS h,
    fun h => setColorFormat_eq_noop now vC rC h,
    fun h1 h2 => throttledSet_window now vT rT h1 h2,
    fun h1 h2 => throttledSet_window now vS rS h1 h2,
    fun h1 h2 => setColorFormat_window now vC rC h1 h2,
    ?_, ?_, ?_⟩
  · rw [hs1]
  · rw [hs1, hs2]
  · rw [hs1, hs2, hs3]

/-- Witness for C2 at a fully concrete timing: start space HSV, calls BGR at
t=100, XYZ at t=130 (dropped), HLS at t=150 (applied). -/
theorem field_throttle_property_witness :
    (setColorFormat 100 ("BGR") { value := some ("HSV"), lastSent := 0 }).value
      = some ("BGR")
    ∧ setColorFormat 130 ("XYZ")
        (setColorFormat 100 ("BGR") { value := some ("HSV"), lastSent := 0 })
      = setColorFormat 100 ("BGR") { value := some ("HSV"), lastSent := 0 }
    ∧ (setColorFormat 150 ("HLS") (setColorFormat 130 ("XYZ")
        (setColorFormat 100 ("BGR")
          { value := some ("HSV"), lastSent := 0 }))).value = some ("HLS") :=
  (field_throttle_property { value := none, lastSent := 0 }
    { value := none, lastSent := 0 } { value := some ("HSV"), lastSent := 0 }
    10 none none ("HSV") ("HSV") ("BGR") ("XYZ") ("HLS") 100 130 150
    (by decide) (by decide) (by decide) (by decide) (by decide) (by decide)
    (by decide) (by decide)).2.2.2.2.2.2

/-! ### Claim C7 : format validation -/

/-- Claim C7 (code bug): `FORMAT.from("from")` evaluates `this["from"]`,
which is the `from` method itself — truthy — so
`setColorFormat("from")` passes validation and stores `"from"`, a value
outside the six-element enumeration, contradicting the documented contract of
`FORMAT.from` ("the format string if valid, otherwise null"). -/
theorem setColorFormat_accepts_from :
    (setColorFormat 100 ("from") { value := some ("HSV"), lastSent := 0 }).value
      = some ("from")
    ∧ FORMATkeys.contains ("from") = false :=
  ⟨by decide, by decide⟩

/-! ### Claim C10 : rejected writes consume the throttle window -/

/-- Claim C10: a `setColorFormat` call with the unrecognized string "xyz" is
rejected (the stored value stays "HSV") but still refreshes `timeLastSent`;
a valid, different value sent 30ms later is then silently dropped. -/
theorem rejected_format_consumes_throttle_window :
    setColorFormat 100 ("xyz") { value := some ("HSV"), lastSent := 0 } =
      { value := some ("HSV"), lastSent := 100 }
    ∧ setColorFormat 130 ("BGR") { value := some ("HSV"), lastSent := 100 } =
      { value := some ("HSV"), lastSent := 100 } :=
  ⟨by decide, by decide⟩

/-! ### Claim C8 : resetToDefaults -/

/-- Claim C8 (counterexample): when the stored color space is "BGR" (any
truthy string), `resetToDefaults()` keeps it instead of setting HSV. -/
theorem reset_retains_prior_color_space :
    (resetToDefaults
      { tapPosition := none, colorFormat := some ("BGR"),
        selectedColor := some (0, 255, 0), colorFilter := some [] }).colorFormat
      = some ("BGR")
    ∧ (("BGR" : String) == "HSV") = false :=
  ⟨rfl, by decide⟩

/-- Claim C8 (amended): `resetToDefaults()` always clears `pendingTap`,
always resets `targetColor` to the fixed default sample, sets the color space
to HSV only when the stored value was falsy (null or empty) and otherwise
retains it, and re-derives the thresholds from the default sample in the
resulting color space. -/
theorem reset_to_defaults_amended (s : GlobalState) :
    (resetToDefaults s).tapPosition = none
    ∧ (resetToDefaults s).selectedColor = some defaultColor
    ∧ (resetToDefaults s).colorFormat =
        (if s.colorFormat = none ∨ s.colorFormat = some ("") then some ("HSV")
         else s.colorFormat)
    ∧ (resetToDefaults s).colorFilter =
        some (ColorClosestToRGB defaultColor
          (((resetToDefaults s).colorFormat).getD ("HSV"))) := by
  refine ⟨rfl, rfl, ?_, ?_⟩
  · unfold resetToDefaults
    cases hcf : s.colorFormat with
    | none => simp
    | some str => by_cases hstr : str = "" <;> simp [hstr]
  · unfold resetToDefaults
    cases hcf : s.colorFormat with
    | none => simp
    | some str => by_cases hstr : str = "" <;> simp [hstr]

/-! ### Claim C9 : table coverage of the closest-category lookup -/

theorem closestColorKey_mem (r g b : Nat) : closestColorKey r g b ∈ tenKeys := by
  simp only [closestColorKey]
  split_ifs <;> decide

theorem grayColorKey_mem (r g b : Nat) : grayColorKey r g b ∈ grayKeys := by
  simp only [grayColorKey]
  split_ifs <;> decide

/-- Claim C9 (counterexample): "Lab" is one of the six FORMAT values, yet the
lookup returns the empty set for every sample, because the class property
holding the table is spelled `LAB` and the validation `!ColorSpace["Lab"]`
fails. -/
theorem lab_bounds_lookup_empty :
    ColorClosestToRGB (224, 138, 9) ("Lab") = []
    ∧ FORMATkeys.contains ("Lab") = true :=
  ⟨by decide, by decide⟩

/-- Claim C9 (amended): for the five FORMAT values whose spelling matches a
static table property (BGR, GRAY, HLS, HSV, XYZ) the closest-category lookup
returns at least one range for every RGB triple in [0,255]³; the sixth value,
"Lab", yields the empty set. -/
theorem bounds_nonempty_for_present_tables (r g b : Nat) (f : String)
    (hr : r ≤ 255) (hg : g ≤ 255) (hb : b ≤ 255) (hf : f ∈ fiveFormats) :
    1 ≤ (ColorClosestToRGB (r, g, b) f).length := by
  have hk := closestColorKey_mem r g b
  have hgk := grayColorKey_mem r g b
  simp only [tenKeys, List.mem_cons, List.not_mem_nil, or_false] at hk
  simp only [grayKeys, List.mem_cons, List.not_mem_nil, or_false] at hgk
  simp only [fiveFormats] at hf
  fin_cases hf
  · simp only [ColorClosestToRGB]
    rw [if_pos (by decide), if_neg (by decide)]
    rcases hk with h|h|h|h|h|h|h|h|h|h <;> rw [h] <;> decide
  · simp only [ColorClosestToRGB]
    rw [if_pos (by decide), if_pos (by decide)]
    rcases hgk with h|h|h|h|h <;> rw [h] <;> decide
  · simp only [ColorClosestToRGB]
    rw [if_pos (by decide), if_neg (by decide)]
    rcases hk with h|h|h|h|h|h|h|h|h|h <;> rw [h] <;> decide
  · simp only [ColorClosestToRGB]
    rw [if_pos (by decide), if_neg (by decide)]
    rcases hk with h|h|h|h|h|h|h|h|h|h <;> rw [h] <;> decide
  · simp only [ColorClosestToRGB]
    rw [if_pos (by decide), if_neg (by decide)]
    rcases hk with h|h|h|h|h|h|h|h|h|h <;> rw [h] <;> decide

/-- Witness for the amended C9 at the default sample in HSV. -/
theorem bounds_nonempty_for_present_tables_witness :
    1 ≤ (ColorClosestToRGB (224, 138, 9) ("HSV")).length :=
  bounds_nonempty_for_present_tables 224 138 9 ("HSV")
    (by decide) (by decide) (by decide) (by decide)

end ColorTrack
